import Mathlib

/-!
Verification development for the metrics subsystem of LibMultiLabel
(`libmultilabel/linear/metrics.py`).

The Python code streams batches of prediction scores and binary targets
through stateful accumulators (`RPrecision`, `Precision`, `F1`), collected
in a `MetricCollection` built by `get_metrics`, with a one-shot wrapper
`compute_metrics` and a formatter `tabulate_metrics`.

Modelling conventions:
* numpy floating-point values are modelled by `NpF`: an exact rational,
  NaN, or a signed infinity; numpy's true division, `nan_to_num` and
  `nansum` are modelled explicitly on `NpF`;
* Python `int` vs numpy-float dynamic typing of the accumulated counters
  (which decides whether `0 / 0` raises `ZeroDivisionError` or yields NaN)
  is tracked by an explicit flag / `Option` in the accumulator state;
* matrices are `Mat`: a row list plus explicit `rows`/`cols` dimensions
  (numpy arrays keep their width even with zero rows);
* fallible Python code (assertions, `raise`, `int()` parsing) is modelled
  with `Except PyErr`.
-/

/-- Python exceptions surfaced by the metrics module. -/
inductive PyErr where
  | assertionError
  | zeroDivisionError
  | valueError (msg : String)
deriving DecidableEq, Repr

/-- A numpy double: an exact rational value, NaN, or a signed infinity. -/
inductive NpF where
  | val (q : ℚ)
  | nan
  | pinf
  | ninf
deriving DecidableEq, Repr

/-- numpy true division of two finite doubles: `0 / 0` is NaN and
`±x / 0` is a signed infinity (`np.seterr` warnings are ignored). -/
def npDiv (a b : ℚ) : NpF :=
  if b = 0 then
    (if a = 0 then .nan else if a > 0 then .pinf else .ninf)
  else .val (a / b)

/-- Largest finite float64, `(2 - 2^-52) * 2^1023`, used by `np.nan_to_num`
to replace infinities. -/
def maxFloat64 : ℚ := 2 ^ 1024 - 2 ^ 971

/-- Model of `np.nan_to_num` with default arguments: NaN becomes 0, infinities
become the extreme finite floats. -/
def nanToNum : NpF → ℚ
  | .val q => q
  | .nan => 0
  | .pinf => maxFloat64
  | .ninf => -maxFloat64

/-- Model of `np.nan_to_num(x, posinf=0.)` as used by `RPrecision.update`:
NaN and +inf become 0; -inf keeps its default replacement. -/
def nanToNumP0 : NpF → ℚ
  | .val q => q
  | .nan => 0
  | .pinf => 0
  | .ninf => -maxFloat64

/-- IEEE-style addition on `NpF`. -/
def NpF.add : NpF → NpF → NpF
  | .val a, .val b => .val (a + b)
  | .nan, _ => .nan
  | _, .nan => .nan
  | .pinf, .ninf => .nan
  | .ninf, .pinf => .nan
  | .pinf, _ => .pinf
  | _, .pinf => .pinf
  | .ninf, _ => .ninf
  | _, .ninf => .ninf

/-- IEEE-style multiplication on `NpF`. -/
def NpF.mul : NpF → NpF → NpF
  | .val a, .val b => .val (a * b)
  | .nan, _ => .nan
  | _, .nan => .nan
  | .pinf, .val b => if b > 0 then .pinf else if b < 0 then .ninf else .nan
  | .val a, .pinf => if a > 0 then .pinf else if a < 0 then .ninf else .nan
  | .ninf, .val b => if b > 0 then .ninf else if b < 0 then .pinf else .nan
  | .val a, .ninf => if a > 0 then .ninf else if a < 0 then .pinf else .nan
  | .pinf, .pinf => .pinf
  | .pinf, .ninf => .ninf
  | .ninf, .pinf => .ninf
  | .ninf, .ninf => .pinf

/-- IEEE-style division on `NpF`. -/
def NpF.div : NpF → NpF → NpF
  | .val a, .val b => npDiv a b
  | .nan, _ => .nan
  | _, .nan => .nan
  | .val _, .pinf => .val 0
  | .val _, .ninf => .val 0
  | .pinf, .val b => if b < 0 then .ninf else .pinf
  | .ninf, .val b => if b < 0 then .pinf else .ninf
  | _, _ => .nan

/-- Model of `np.nansum` over a vector of doubles: NaN entries are treated as 0,
infinities propagate through IEEE addition. -/
def nansum (l : List NpF) : NpF :=
  l.foldl (fun acc x => NpF.add acc (if x = NpF.nan then NpF.val 0 else x)) (NpF.val 0)

/-- A 2-dimensional numpy array: row-major data with explicit dimensions
(the dimensions survive even when one of them is zero). -/
structure Mat where
  rows : ℕ
  cols : ℕ
  data : List (List ℚ)
deriving DecidableEq, Repr

/-- Row-wise concatenation of two batches (`np.concatenate` along axis 0). -/
def Mat.vcat (a b : Mat) : Mat :=
  { rows := a.rows + b.rows, cols := a.cols, data := a.data ++ b.data }

/-- Python true division `score / num_sample` where `num_sample` is a
Python `int` and `score` is an `int` when `isFloat = false` (never updated
since construction/reset) and a numpy float otherwise.  Integer `0 / 0`
raises `ZeroDivisionError`; numpy-float division by zero yields NaN/inf. -/
def pyDivMixed (score : ℚ) (isFloat : Bool) (n : ℕ) : Except PyErr NpF :=
  if n = 0 then
    (if isFloat then .ok (npDiv score 0) else .error .zeroDivisionError)
  else .ok (.val (score / (n : ℚ)))

/-- Insert index `i` into an index list sorted by decreasing `row` value. -/
def insIdx (row : List ℚ) (i : ℕ) : List ℕ → List ℕ
  | [] => [i]
  | j :: rest =>
      if row.getD i 0 > row.getD j 0 then i :: j :: rest else j :: insIdx row i rest

/-- All column indices of a row sorted by decreasing score (a deterministic
stand-in for `np.argpartition`'s permutation; tie order among equal scores
is unspecified in numpy and irrelevant to the claims). -/
def sortDesc (row : List ℚ) : List ℕ :=
  (List.range row.length).foldr (insIdx row) []

/-- The top-`k` column indices of a row: `np.argpartition(row, -k)[-k:]`.
A Python slice `[-0:]` is the whole array, hence the `k = 0` case. -/
def topIdx (k : ℕ) (row : List ℚ) : List ℕ :=
  if k = 0 then sortDesc row else (sortDesc row).take k

/-- Model of `np.take_along_axis(target, top_k_ind, -1).sum(-1)` for one row:
the summed target values at the row's top-`k` predicted indices. -/
def rowRelevant (k : ℕ) (prow trow : List ℚ) : ℚ :=
  ((topIdx k prow).map (fun j => trow.getD j 0)).sum

/-- State of the `RPrecision` accumulator.  `updated` records whether `score` is
still the Python `int` 0 from `__init__`/`reset` (false) or a numpy float
(true); `num_sample` is always a Python `int`. -/
structure RPrecision where
  top_k : ℕ
  score : ℚ
  num_sample : ℕ
  updated : Bool
deriving DecidableEq, Repr

namespace RPrecision

/-- Source `RPrecision.__init__(top_k)`. -/
def init (top_k : ℕ) : RPrecision := ⟨top_k, 0, 0, false⟩

/-- The state transition of `RPrecision.update` (the success path, after
the shape assertion and `argpartition` bounds check): adds
`np.nan_to_num(num_relevant / np.minimum(top_k, target.sum(-1)), posinf=0.).sum()`
to `score` and the batch's row count to `num_sample`. -/
def step (s : RPrecision) (preds target : Mat) : RPrecision :=
  { s with
    score := s.score +
      ((preds.data.zip target.data).map (fun rt =>
        nanToNumP0 (npDiv (rowRelevant s.top_k rt.1 rt.2)
          (min (s.top_k : ℚ) rt.2.sum)))).sum,
    num_sample := s.num_sample + preds.rows,
    updated := true }

/-- Source `RPrecision.update`: asserts `preds.shape == target.shape`, then
`np.argpartition(preds, -top_k)` requires `0 < cols` and `top_k ≤ cols`. -/
def update (s : RPrecision) (preds target : Mat) : Except PyErr RPrecision :=
  if ¬(preds.rows = target.rows ∧ preds.cols = target.cols) then
    .error .assertionError
  else if ¬(0 < preds.cols ∧ s.top_k ≤ preds.cols) then
    .error (.valueError "kth out of bounds")
  else .ok (s.step preds target)

/-- Source `RPrecision.compute`: `score / num_sample`. -/
def compute (s : RPrecision) : Except PyErr NpF :=
  pyDivMixed s.score s.updated s.num_sample

/-- Source `RPrecision.reset`. -/
def reset (s : RPrecision) : RPrecision :=
  { s with score := 0, num_sample := 0, updated := false }

end RPrecision

/-- State of the `Precision` accumulator (the constructor's `num_classes` is not
stored by the Python class; only `top_k` and the running sums are). -/
structure Precision where
  top_k : ℕ
  score : ℚ
  num_sample : ℕ
  updated : Bool
deriving DecidableEq, Repr

namespace Precision

/-- Internal state produced by `Precision.__init__` on success. -/
def init (top_k : ℕ) : Precision := ⟨top_k, 0, 0, false⟩

/-- Source `Precision.__init__(num_classes, average, top_k)`: any `average` other
than `"samples"` raises `ValueError('unsupported average')`. -/
def make (_num_classes : ℕ) (average : String) (top_k : ℕ) : Except PyErr Precision :=
  if average ≠ "samples" then .error (.valueError "unsupported average")
  else .ok (init top_k)

/-- The state transition of `Precision.update` (success path): adds
`np.take_along_axis(target, top_k_ind, -1).sum() / top_k` (one scalar for
the whole batch) to `score`.  For `top_k = 0` the Python division yields a
NaN/inf float; the theorems below only concern `0 < top_k`, where the
rational division used here agrees with numpy exactly. -/
def step (s : Precision) (preds target : Mat) : Precision :=
  { s with
    score := s.score +
      ((preds.data.zip target.data).map (fun rt =>
        rowRelevant s.top_k rt.1 rt.2)).sum / (s.top_k : ℚ),
    num_sample := s.num_sample + preds.rows,
    updated := true }

/-- Source `Precision.update`: shape assertion plus `argpartition` bounds. -/
def update (s : Precision) (preds target : Mat) : Except PyErr Precision :=
  if ¬(preds.rows = target.rows ∧ preds.cols = target.cols) then
    .error .assertionError
  else if ¬(0 < preds.cols ∧ s.top_k ≤ preds.cols) then
    .error (.valueError "kth out of bounds")
  else .ok (s.step preds target)

/-- Source `Precision.compute`: `score / num_sample`. -/
def compute (s : Precision) : Except PyErr NpF :=
  pyDivMixed s.score s.updated s.num_sample

/-- Source `Precision.reset`. -/
def reset (s : Precision) : Precision :=
  { s with score := 0, num_sample := 0, updated := false }

end Precision

/-- Model of `np.argmax` over one row: index of the first maximal entry. -/
def argmaxIdx (row : List ℚ) : ℕ :=
  (List.range row.length).foldl
    (fun b j => if row.getD j 0 > row.getD b 0 then j else b) 0

/-- Binarization used by `F1.update`: in multiclass mode a one-hot vector
at the row's argmax (`np.put_along_axis` on zeros); otherwise the
elementwise strict comparison `preds > metric_threshold`. -/
def binRow (th : ℚ) (mc : Bool) (row : List ℚ) : List Bool :=
  if mc then (List.range row.length).map (fun j => j == argmaxIdx row)
  else row.map (fun q => decide (q > th))

/-- One per-class count of `F1.update`, e.g.
`np.logical_and(target == 1, preds == 1).sum(axis=0)`:
for each column `j`, the number of rows whose (target value, binarized
prediction) pair satisfies `cond`. -/
def countCol (cond : ℚ → Bool → Bool) (th : ℚ) (mc : Bool)
    (preds target : Mat) : List ℕ :=
  (List.range preds.cols).map (fun j =>
    ((preds.data.zip target.data).map (fun rt =>
      if cond (rt.2.getD j 0) ((binRow th mc rt.1).getD j false) then 1 else 0)).sum)

/-- State of the `F1` accumulator.  `counts = none` models the Python `int` zeros
`self.tp = self.fp = self.fn = 0` from `__init__`/`reset`; after the first
`update` they are numpy integer vectors `some (tp, fn, fp)` (the scalar 0
broadcasts over the first batch's column sums). -/
structure F1 where
  num_classes : ℕ
  metric_threshold : ℚ
  average : String
  multiclass : Bool
  counts : Option (List ℕ × List ℕ × List ℕ)
deriving DecidableEq, Repr

namespace F1

/-- Internal state produced by `F1.__init__` on success. -/
def init (num_classes : ℕ) (metric_threshold : ℚ) (average : String)
    (multiclass : Bool) : F1 :=
  ⟨num_classes, metric_threshold, average, multiclass, none⟩

/-- Source `F1.__init__`: `average` must be `'macro'`, `'micro'` or
`'another-macro'`, otherwise `ValueError('unsupported average')`. -/
def make (num_classes : ℕ) (metric_threshold : ℚ) (average : String)
    (multiclass : Bool) : Except PyErr F1 :=
  if ¬(average = "macro" ∨ average = "micro" ∨ average = "another-macro") then
    .error (.valueError "unsupported average")
  else .ok (init num_classes metric_threshold average multiclass)

/-- The state transition of `F1.update` (success path): binarizes the
predictions and accumulates per-class tp / fn / fp counts. -/
def step (s : F1) (preds target : Mat) : F1 :=
  let tpN := countCol (fun tv pb => tv == 1 && pb) s.metric_threshold s.multiclass preds target
  let fnN := countCol (fun tv pb => tv == 1 && !pb) s.metric_threshold s.multiclass preds target
  let fpN := countCol (fun tv pb => tv == 0 && pb) s.metric_threshold s.multiclass preds target
  { s with
    counts := some (match s.counts with
      | none => (tpN, fnN, fpN)
      | some (tp, fn, fp) =>
          (tp.zipWith (· + ·) tpN, fn.zipWith (· + ·) fnN, fp.zipWith (· + ·) fpN)) }

/-- Source `F1.update`: shape assertion, then the accumulation step. -/
def update (s : F1) (preds target : Mat) : Except PyErr F1 :=
  if ¬(preds.rows = target.rows ∧ preds.cols = target.cols) then
    .error .assertionError
  else .ok (s.step preds target)

/-- Source `F1.compute`.  With `counts = none` the counters are Python `int`
zeros: the macro and another-macro branches evaluate `0 / 0` on plain
ints and raise `ZeroDivisionError`, while the micro branch goes through
`np.sum` (numpy 0/0 → NaN, suppressed by `np.seterr('ignore')`) and
`np.nan_to_num`, returning `0.0`.  With accumulated numpy vectors every
0/0 is a NaN handled by `np.nansum` / `np.nan_to_num`.  The final `else`
models Python's unbound-local failure, unreachable through `F1.make`. -/
def compute (s : F1) : Except PyErr NpF :=
  match s.counts with
  | none =>
      if s.average = "macro" then .error .zeroDivisionError
      else if s.average = "micro" then .ok (.val 0)
      else if s.average = "another-macro" then .error .zeroDivisionError
      else .error (.valueError "local variable referenced before assignment")
  | some (tp, fn, fp) =>
      if s.average = "macro" then
        .ok (NpF.div
          (nansum ((tp.zip (fn.zip fp)).map (fun c =>
            npDiv (2 * (c.1 : ℚ)) (2 * (c.1 : ℚ) + (c.2.2 : ℚ) + (c.2.1 : ℚ)))))
          (.val (s.num_classes : ℚ)))
      else if s.average = "micro" then
        let den : ℕ := ((tp.zip (fn.zip fp)).map (fun c => 2 * c.1 + c.2.2 + c.2.1)).sum
        .ok (.val (nanToNum (npDiv (2 * (tp.sum : ℚ)) (den : ℚ))))
      else if s.average = "another-macro" then
        let mPrec := NpF.div
          (nansum ((tp.zip fp).map (fun c => npDiv (c.1 : ℚ) ((c.1 : ℚ) + (c.2 : ℚ)))))
          (.val (s.num_classes : ℚ))
        let mRecall := NpF.div
          (nansum ((tp.zip fn).map (fun c => npDiv (c.1 : ℚ) ((c.1 : ℚ) + (c.2 : ℚ)))))
          (.val (s.num_classes : ℚ))
        .ok (.val (nanToNum (NpF.div (NpF.mul (NpF.mul (.val 2) mPrec) mRecall)
          (NpF.add mPrec mRecall))))
      else .error (.valueError "local variable referenced before assignment")

/-- Source `F1.reset`: `self.tp = self.fp = self.fn = 0` (back to Python ints). -/
def reset (s : F1) : F1 := { s with counts := none }

end F1

/-- The closed set of accumulator kinds produced by `get_metrics`. -/
inductive Metric where
  | rp (s : RPrecision)
  | prec (s : Precision)
  | f1 (s : F1)
deriving DecidableEq, Repr

/-- Dispatch of `update` to the member's class. -/
def Metric.update (m : Metric) (preds target : Mat) : Except PyErr Metric :=
  match m with
  | .rp s => (s.update preds target).map .rp
  | .prec s => (s.update preds target).map .prec
  | .f1 s => (s.update preds target).map .f1

/-- Dispatch of `compute` to the member's class. -/
def Metric.compute (m : Metric) : Except PyErr NpF :=
  match m with
  | .rp s => s.compute
  | .prec s => s.compute
  | .f1 s => s.compute

/-- Dispatch of `reset` to the member's class. -/
def Metric.reset (m : Metric) : Metric :=
  match m with
  | .rp s => .rp s.reset
  | .prec s => .prec s.reset
  | .f1 s => .f1 s.reset

/-- Model of `MetricCollection`: an insertion-ordered dictionary from metric name
to accumulator. -/
structure MColl where
  metrics : List (String × Metric)
deriving DecidableEq, Repr

namespace MColl

/-- Source `MetricCollection.update`: asserts shape equality once, then fans the
identical batch out to every member in order. -/
def update (c : MColl) (preds target : Mat) : Except PyErr MColl :=
  if ¬(preds.rows = target.rows ∧ preds.cols = target.cols) then
    .error .assertionError
  else
    (c.metrics.mapM (fun (nm : String × Metric) =>
      (nm.2.update preds target).map (fun m => (nm.1, m)))).map MColl.mk

/-- Source `MetricCollection.compute`: name-to-value dictionary. -/
def compute (c : MColl) : Except PyErr (List (String × NpF)) :=
  c.metrics.mapM (fun (nm : String × Metric) =>
    (nm.2.compute).map (fun v => (nm.1, v)))

/-- Source `MetricCollection.reset`. -/
def reset (c : MColl) : MColl :=
  ⟨c.metrics.map (fun nm => (nm.1, nm.2.reset))⟩

end MColl

/-- Python dict assignment `d[k] = v`: replaces in place if the key
exists (keeping its position), otherwise appends. -/
def dictInsert (d : List (String × Metric)) (k : String) (v : Metric) :
    List (String × Metric) :=
  if d.any (fun kv => kv.1 == k) then
    d.map (fun kv => if kv.1 == k then (k, v) else kv)
  else d ++ [(k, v)]

/-- Model of `re.match('P@\d+', m)`: the string starts with `P@` followed by at
least one digit (Python's `re.match` anchors at the start only). -/
def matchPAt (m : String) : Bool :=
  m.toList.take 2 == ['P', '@'] && ((m.toList.drop 2).headD 'x').isDigit

/-- Model of `re.match('RP@\d+', m)`. -/
def matchRPAt (m : String) : Bool :=
  m.toList.take 3 == ['R', 'P', '@'] && ((m.toList.drop 3).headD 'x').isDigit

/-- Whether Python `int(s)` accepts `s` (restricted to the plain
all-digits form; the factory only applies it to slices that start with a
digit, and underscore digit-grouping is not exercised by the claims). -/
def digitsOk (s : String) : Bool :=
  s.length ≠ 0 && s.toList.all Char.isDigit

/-- Python `int(s)` on a digit string. -/
def pyInt (s : String) : Except PyErr ℕ :=
  if digitsOk s then
    .ok (s.toList.foldl (fun a c => 10 * a + (c.toNat - 48)) 0)
  else .error (.valueError ("invalid literal for int: " ++ s))

/-- Python `metric[:-3].lower()`: drop the last three characters and
lowercase the rest (ASCII lowercasing over the character list). -/
def sliceLower3 (m : String) : String :=
  String.mk ((m.toList.take (m.toList.length - 3)).map Char.toLower)

/-- The loop body of `get_metrics`: parse each name in order, building
the dictionary; an unrecognized name raises
`ValueError(f'invalid metric: {metric}')`. -/
def buildMetrics (metric_threshold : ℚ) (num_classes : ℕ) (multiclass : Bool) :
    List String → List (String × Metric) → Except PyErr (List (String × Metric))
  | [], acc => .ok acc
  | m :: rest, acc =>
    if matchPAt m then
      (pyInt (m.drop 2)).bind (fun k =>
        (Precision.make num_classes "samples" k).bind (fun p =>
          buildMetrics metric_threshold num_classes multiclass rest
            (dictInsert acc m (.prec p))))
    else if matchRPAt m then
      (pyInt (m.drop 3)).bind (fun k =>
        buildMetrics metric_threshold num_classes multiclass rest
          (dictInsert acc m (.rp (RPrecision.init k))))
    else if m = "Another-Macro-F1" ∨ m = "Macro-F1" ∨ m = "Micro-F1" then
      (F1.make num_classes metric_threshold (sliceLower3 m) multiclass).bind
        (fun f => buildMetrics metric_threshold num_classes multiclass rest
          (dictInsert acc m (.f1 f)))
    else .error (.valueError ("invalid metric: " ++ m))

/-- Source `get_metrics(metric_threshold, monitor_metrics, num_classes,
multiclass)` (the `monitor_metrics is None` branch simply yields the empty
list and is subsumed by passing `[]`). -/
def get_metrics (metric_threshold : ℚ) (monitor_metrics : List String)
    (num_classes : ℕ) (multiclass : Bool) : Except PyErr MColl :=
  (buildMetrics metric_threshold num_classes multiclass monitor_metrics []).map MColl.mk

/-- Source `compute_metrics`: asserts shape equality, builds a fresh collection
sized to the prediction matrix's column count, performs one `update` with
the full matrices and returns `compute()`. -/
def compute_metrics (preds target : Mat) (metric_threshold : ℚ)
    (monitor_metrics : List String) (multiclass : Bool) :
    Except PyErr (List (String × NpF)) :=
  if ¬(preds.rows = target.rows ∧ preds.cols = target.cols) then
    .error .assertionError
  else
    (get_metrics metric_threshold monitor_metrics preds.cols multiclass).bind
      (fun c => (c.update preds target).bind MColl.compute)

/-- Round half to even (Python's float formatting rounding mode). -/
def rhe (x : ℚ) : ℤ :=
  let f := x.floor
  let r := x - (f : ℚ)
  if r < 1 / 2 then f
  else if r > 1 / 2 then f + 1
  else if f % 2 = 0 then f else f + 1

/-- Left-pad a numeral string with zeros to 4 characters. -/
def padZeros4 (s : String) : String :=
  String.mk (List.replicate (4 - s.length) '0') ++ s

/-- Python `f'{q:.4f}'` on an exact rational. -/
def fmtFixed4 (q : ℚ) : String :=
  let n := rhe (q * 10000)
  let sign := if n < 0 then "-" else ""
  let m := n.natAbs
  sign ++ toString (m / 10000) ++ "." ++ padZeros4 (toString (m % 10000))

/-- Python centering `f'{s:^18}'`: pad to 18 characters, extra space on
the right. -/
def center18 (s : String) : String :=
  if 18 ≤ s.length then s
  else
    let pad := 18 - s.length
    String.mk (List.replicate (pad / 2) ' ') ++ s ++
      String.mk (List.replicate (pad - pad / 2) ' ')

/-- Source `tabulate_metrics(metric_dict, split)`.  Metric values coming out of
the accumulators are floats, so the `isinstance(x, (np.floating, float))`
branch (scale by 100, 4 decimal places) always applies in this model. -/
def tabulate_metrics (metric_dict : List (String × ℚ)) (split : String) : String :=
  let header := String.intercalate "|" (metric_dict.map (fun kv => center18 kv.1))
  let values := String.intercalate "|"
    (metric_dict.map (fun kv => center18 (fmtFixed4 (kv.2 * 100))))
  "====== " ++ split ++ " dataset evaluation result =======\n" ++
    "|" ++ header ++ "|\n" ++
    "|" ++ String.join (List.replicate metric_dict.length "-----------------:|") ++ "\n" ++
    "|" ++ values ++ "|\n"

/-- Replay a sequence of (preds, target) batches through `RPrecision`. -/
def replayRP (s : RPrecision) (bs : List (Mat × Mat)) : RPrecision :=
  bs.foldl (fun a b => a.step b.1 b.2) s

/-- Replay a sequence of (preds, target) batches through `Precision`. -/
def replayP (s : Precision) (bs : List (Mat × Mat)) : Precision :=
  bs.foldl (fun a b => a.step b.1 b.2) s

/-- Replay a sequence of (preds, target) batches through `F1`. -/
def replayF1 (s : F1) (bs : List (Mat × Mat)) : F1 :=
  bs.foldl (fun a b => a.step b.1 b.2) s

/-! ## Helper lemmas -/

/-- Summing a row-wise function over the zip of concatenated row lists
splits into the two partial sums. -/
theorem sum_map_zip_append {α β M : Type} [AddCommMonoid M] (f : α × β → M)
    (l1 l3 : List α) (l2 l4 : List β) (h : l1.length = l2.length) :
    (((l1 ++ l3).zip (l2 ++ l4)).map f).sum
      = ((l1.zip l2).map f).sum + ((l3.zip l4).map f).sum := by
  rw [List.zip_append h, List.map_append, List.sum_append]

/-- Pointwise addition of two maps over the same index list. -/
theorem zipWith_add_map {α : Type} (f g : α → ℕ) (l : List α) :
    List.zipWith (· + ·) (l.map f) (l.map g) = l.map (fun x => f x + g x) := by
  rw [List.zipWith_map, List.zipWith_same]

/-- Lemma: `countCol` over a row-wise concatenation is the pointwise sum of the
two per-batch counts. -/
theorem countCol_vcat (cond : ℚ → Bool → Bool) (th : ℚ) (mc : Bool)
    (p1 t1 p2 t2 : Mat) (hlen : p1.data.length = t1.data.length)
    (hcols : p2.cols = p1.cols) :
    countCol cond th mc (p1.vcat p2) (t1.vcat t2)
      = List.zipWith (· + ·) (countCol cond th mc p1 t1) (countCol cond th mc p2 t2) := by
  unfold countCol Mat.vcat
  simp only [hcols, zipWith_add_map]
  exact List.map_congr_left (fun j _ => sum_map_zip_append _ _ _ _ _ hlen)

/-- Batch additivity of the `RPrecision` state transition. -/
theorem rp_step_vcat (s : RPrecision) (p1 t1 p2 t2 : Mat)
    (hlen : p1.data.length = t1.data.length) :
    (s.step p1 t1).step p2 t2 = s.step (p1.vcat p2) (t1.vcat t2) := by
  unfold RPrecision.step Mat.vcat
  simp only [RPrecision.mk.injEq]
  refine ⟨trivial, ?_, ?_, trivial⟩
  · rw [sum_map_zip_append _ _ _ _ _ hlen, add_assoc]
  · rw [add_assoc]

/-- Batch additivity of the `Precision` state transition. -/
theorem prec_step_vcat (s : Precision) (p1 t1 p2 t2 : Mat)
    (hlen : p1.data.length = t1.data.length) :
    (s.step p1 t1).step p2 t2 = s.step (p1.vcat p2) (t1.vcat t2) := by
  unfold Precision.step Mat.vcat
  simp only [Precision.mk.injEq]
  refine ⟨trivial, ?_, ?_, trivial⟩
  · rw [sum_map_zip_append _ _ _ _ _ hlen, add_div, add_assoc]
  · rw [add_assoc]

/-- Batch additivity of the `F1` state transition from a fresh state. -/
theorem f1_step_vcat (n : ℕ) (th : ℚ) (avg : String) (mc : Bool)
    (p1 t1 p2 t2 : Mat) (hlen : p1.data.length = t1.data.length)
    (hcols : p2.cols = p1.cols) :
    ((F1.init n th avg mc).step p1 t1).step p2 t2
      = (F1.init n th avg mc).step (p1.vcat p2) (t1.vcat t2) := by
  unfold F1.step F1.init
  simp only [F1.mk.injEq, countCol_vcat _ _ _ _ _ _ _ hlen hcols]

/-! ## Claim theorems -/

/-- C1: for every row-wise split of a same-shaped prediction/target pair
into two sub-batches, calling `update` twice on a freshly constructed
accumulator and then `compute()` equals one `update` with the concatenated
matrices followed by `compute()`, for `Precision`, `F1` under every
averaging mode and multiclass flag, and `RPrecision`. -/
theorem c1_split_update_batches (k n : ℕ) (th : ℚ) (avg : String) (mc : Bool)
    (p1 t1 p2 t2 : Mat) (hlen : p1.data.length = t1.data.length)
    (hcols : p2.cols = p1.cols) :
    (((RPrecision.init k).step p1 t1).step p2 t2).compute
      = ((RPrecision.init k).step (p1.vcat p2) (t1.vcat t2)).compute ∧
    (((Precision.init k).step p1 t1).step p2 t2).compute
      = ((Precision.init k).step (p1.vcat p2) (t1.vcat t2)).compute ∧
    (((F1.init n th avg mc).step p1 t1).step p2 t2).compute
      = ((F1.init n th avg mc).step (p1.vcat p2) (t1.vcat t2)).compute :=
  ⟨congrArg RPrecision.compute (rp_step_vcat _ p1 t1 p2 t2 hlen),
   congrArg Precision.compute (prec_step_vcat _ p1 t1 p2 t2 hlen),
   congrArg F1.compute (f1_step_vcat n th avg mc p1 t1 p2 t2 hlen hcols)⟩

/-- Witness for C1 at a concrete split batch. -/
theorem c1_split_update_batches_witness :
    (Mat.mk 1 2 [[1, 0]]).data.length = (Mat.mk 1 2 [[0, 1]]).data.length ∧
    (Mat.mk 1 2 [[1/2, 1/4]]).cols = (Mat.mk 1 2 [[1, 0]]).cols ∧
    ((((RPrecision.init 1).step (Mat.mk 1 2 [[1, 0]]) (Mat.mk 1 2 [[0, 1]])).step
        (Mat.mk 1 2 [[1/2, 1/4]]) (Mat.mk 1 2 [[1, 1]])).compute
      = ((RPrecision.init 1).step ((Mat.mk 1 2 [[1, 0]]).vcat (Mat.mk 1 2 [[1/2, 1/4]]))
          ((Mat.mk 1 2 [[0, 1]]).vcat (Mat.mk 1 2 [[1, 1]]))).compute ∧
    (((Precision.init 1).step (Mat.mk 1 2 [[1, 0]]) (Mat.mk 1 2 [[0, 1]])).step
        (Mat.mk 1 2 [[1/2, 1/4]]) (Mat.mk 1 2 [[1, 1]])).compute
      = ((Precision.init 1).step ((Mat.mk 1 2 [[1, 0]]).vcat (Mat.mk 1 2 [[1/2, 1/4]]))
          ((Mat.mk 1 2 [[0, 1]]).vcat (Mat.mk 1 2 [[1, 1]]))).compute ∧
    (((F1.init 2 (1/2) "macro" false).step (Mat.mk 1 2 [[1, 0]]) (Mat.mk 1 2 [[0, 1]])).step
        (Mat.mk 1 2 [[1/2, 1/4]]) (Mat.mk 1 2 [[1, 1]])).compute
      = ((F1.init 2 (1/2) "macro" false).step
          ((Mat.mk 1 2 [[1, 0]]).vcat (Mat.mk 1 2 [[1/2, 1/4]]))
          ((Mat.mk 1 2 [[0, 1]]).vcat (Mat.mk 1 2 [[1, 1]]))).compute) :=
  ⟨by decide, by decide,
   c1_split_update_batches 1 2 (1/2) "macro" false _ _ _ _ (by decide) (by decide)⟩

/-- C2: `compute_metrics` equals building a fresh collection sized to the
prediction matrix's column count, one `update` with the full matrices,
then `compute()`. -/
theorem c2_compute_metrics_refines (p t : Mat) (th : ℚ) (mm : List String)
    (mc : Bool) (hr : p.rows = t.rows) (hc : p.cols = t.cols) :
    compute_metrics p t th mm mc
      = (get_metrics th mm p.cols mc).bind
          (fun c => (c.update p t).bind MColl.compute) := by
  unfold compute_metrics
  rw [if_neg (by simp [hr, hc])]

/-- Witness for C2 at a concrete input exercising all metric kinds. -/
theorem c2_compute_metrics_refines_witness :
    (Mat.mk 1 2 [[1, 0]]).rows = (Mat.mk 1 2 [[0, 1]]).rows ∧
    (Mat.mk 1 2 [[1, 0]]).cols = (Mat.mk 1 2 [[0, 1]]).cols ∧
    compute_metrics (Mat.mk 1 2 [[1, 0]]) (Mat.mk 1 2 [[0, 1]]) (1/2)
        ["P@1", "RP@1", "Macro-F1", "Micro-F1", "Another-Macro-F1"] false
      = (get_metrics (1/2) ["P@1", "RP@1", "Macro-F1", "Micro-F1", "Another-Macro-F1"]
          (Mat.mk 1 2 [[1, 0]]).cols false).bind
          (fun c => (c.update (Mat.mk 1 2 [[1, 0]]) (Mat.mk 1 2 [[0, 1]])).bind
            MColl.compute) :=
  ⟨by decide, by decide,
   c2_compute_metrics_refines (Mat.mk 1 2 [[1, 0]]) (Mat.mk 1 2 [[0, 1]]) (1/2)
     ["P@1", "RP@1", "Macro-F1", "Micro-F1", "Another-Macro-F1"] false rfl rfl⟩

/-- C9: `compute` is a pure function of the accumulator state, and
`reset` restores exactly the freshly constructed state, so replaying any
batch sequence after a `reset` reproduces the `compute()` output of a
fresh run, for all three accumulator kinds. -/
theorem c9_reset_replay (r : RPrecision) (p : Precision) (f : F1)
    (bsR bsP bsF : List (Mat × Mat)) :
    (replayRP r.reset bsR).compute = (replayRP (RPrecision.init r.top_k) bsR).compute ∧
    (replayP p.reset bsP).compute = (replayP (Precision.init p.top_k) bsP).compute ∧
    (replayF1 f.reset bsF).compute
      = (replayF1 (F1.init f.num_classes f.metric_threshold f.average f.multiclass) bsF).compute :=
  ⟨rfl, rfl, rfl⟩

/-- C10 counterexample: a freshly constructed `F1` accumulator with
`micro` averaging does not raise a division-by-zero error on `compute()`:
the numpy `0 / 0` yields NaN which `np.nan_to_num` converts to `0.0`. -/
theorem c10_counterexample :
    F1.compute (F1.init 3 (1/2) "micro" false) = .ok (.val 0) ∧
    F1.compute (F1.init 3 (1/2) "micro" false) ≠ .error .zeroDivisionError := by
  refine ⟨rfl, fun h => ?_⟩
  have h2 : (Except.ok (NpF.val 0) : Except PyErr NpF) = .error .zeroDivisionError := h
  exact Except.noConfusion h2

/-- C10 amended: `compute()` on a freshly constructed (or just reset)
accumulator raises `ZeroDivisionError` for `RPrecision`, `Precision`, and
`F1` with `macro` or `another-macro` averaging, because the counters are
exact Python-integer zeros; `F1` with `micro` averaging instead returns
`0.0` (numpy NaN suppressed by `nan_to_num`), and a reset `F1` behaves
exactly like a fresh one. -/
theorem c10_empty_compute_amended (k k' n : ℕ) (th : ℚ) (mc : Bool)
    (r : RPrecision) (p : Precision) (f : F1) :
    (RPrecision.init k).compute = .error .zeroDivisionError ∧
    (RPrecision.reset r).compute = .error .zeroDivisionError ∧
    (Precision.init k').compute = .error .zeroDivisionError ∧
    (Precision.reset p).compute = .error .zeroDivisionError ∧
    (F1.init n th "macro" mc).compute = .error .zeroDivisionError ∧
    (F1.init n th "another-macro" mc).compute = .error .zeroDivisionError ∧
    (F1.init n th "micro" mc).compute = .ok (.val 0) ∧
    (F1.reset f).compute
      = (F1.init f.num_classes f.metric_threshold f.average f.multiclass).compute :=
  ⟨rfl, rfl, rfl, rfl, rfl, rfl, rfl, rfl⟩

/-- Every `getD` lookup in a 0/1-valued row is 0 or 1 (out-of-range
lookups default to 0). -/
theorem getD_binary (trow : List ℚ) (hb : ∀ x ∈ trow, x = 0 ∨ x = 1) (j : ℕ) :
    trow.getD j 0 = 0 ∨ trow.getD j 0 = 1 := by
  rw [List.getD_eq_getElem?_getD]
  rcases h : trow[j]? with _ | x
  · exact Or.inl rfl
  · exact hb x (List.getElem?_mem h)

/-- Over a 0/1-valued row, summing looked-up target values counts the
indices whose target entry is 1. -/
theorem sum_getD_eq_count (trow : List ℚ) (hb : ∀ x ∈ trow, x = 0 ∨ x = 1)
    (idx : List ℕ) :
    (idx.map (fun j => trow.getD j 0)).sum
      = ((idx.countP (fun j => trow.getD j 0 == 1) : ℕ) : ℚ) := by
  induction idx with
  | nil => simp
  | cons j idx ih =>
    simp only [List.map_cons, List.sum_cons, List.countP_cons, ih]
    rcases getD_binary trow hb j with h | h <;> rw [h] <;> norm_num
    ring

/-- A 0/1-valued row sums to the number of its 1 entries. -/
theorem sum_binary_eq_count (trow : List ℚ) (hb : ∀ x ∈ trow, x = 0 ∨ x = 1) :
    trow.sum = ((trow.countP (fun x => x == 1) : ℕ) : ℚ) := by
  induction trow with
  | nil => simp
  | cons x l ih =>
    have hx := hb x (List.mem_cons_self x l)
    have hl := ih (fun y hy => hb y (List.mem_cons_of_mem x hy))
    simp only [List.sum_cons, List.countP_cons, hl]
    rcases hx with h | h <;> rw [h] <;> norm_num
    ring

/-- A row with no 1 entries has every lookup equal to 0. -/
theorem getD_eq_zero_of_no_ones (trow : List ℚ) (hb : ∀ x ∈ trow, x = 0 ∨ x = 1)
    (h0 : trow.countP (fun x => x == 1) = 0) (j : ℕ) :
    trow.getD j 0 = 0 := by
  rcases getD_binary trow hb j with h | h
  · exact h
  · exfalso
    rw [List.getD_eq_getElem?_getD] at h
    rcases hj : trow[j]? with _ | x
    · rw [hj] at h
      exact one_ne_zero h.symm
    · rw [hj] at h
      simp only [Option.getD_some] at h
      have hmem : x ∈ trow := List.getElem?_mem hj
      have hcnt : 0 < trow.countP (fun x => x == 1) :=
        List.countP_pos_iff.mpr ⟨x, hmem, by simp [h]⟩
      omega

/-- C4: an `RPrecision(top_k)` update (with `0 < top_k` and a 0/1 target)
adds, per row: 0 when the row has no true labels (the `0/0` NaN is
suppressed by `nan_to_num`), and otherwise the number of top-`top_k`
predicted indices that are true divided by `min(top_k, #true labels)`;
the sample count grows by the batch's row count either way. -/
theorem c4_rprecision_zero_label_rows (s : RPrecision) (p t : Mat)
    (hk : 0 < s.top_k)
    (hb : ∀ row ∈ t.data, ∀ x ∈ row, x = 0 ∨ x = 1) :
    s.step p t = { s with
      score := s.score + ((p.data.zip t.data).map (fun rt =>
        if rt.2.countP (fun x => x == 1) = 0 then 0
        else (((topIdx s.top_k rt.1).countP (fun j => rt.2.getD j 0 == 1) : ℕ) : ℚ)
          / (min (s.top_k : ℚ) ((rt.2.countP (fun x => x == 1) : ℕ) : ℚ)))).sum,
      num_sample := s.num_sample + p.rows,
      updated := true } := by
  unfold RPrecision.step
  simp only [RPrecision.mk.injEq]
  refine ⟨trivial, ?_, trivial, trivial⟩
  congr 1
  apply congrArg List.sum
  apply List.map_congr_left
  intro a ha
  obtain ⟨pr, tr⟩ := a
  have htr : ∀ x ∈ tr, x = 0 ∨ x = 1 := hb tr (List.of_mem_zip ha).2
  show nanToNumP0 (npDiv (rowRelevant s.top_k pr tr) (min (s.top_k : ℚ) tr.sum)) = _
  rw [rowRelevant, sum_getD_eq_count tr htr, sum_binary_eq_count tr htr]
  by_cases h0 : tr.countP (fun x => x == 1) = 0
  · rw [if_pos h0, h0]
    have hn : ((topIdx s.top_k pr).countP (fun j => tr.getD j 0 == 1)) = 0 := by
      rw [List.countP_eq_zero]
      intro j _
      have hz := getD_eq_zero_of_no_ones tr htr h0 j
      simp only [List.getD_eq_getElem?_getD] at hz
      simp [hz]
    rw [hn]
    norm_num [npDiv, nanToNumP0]
  · rw [if_neg h0]
    have hpos : (0 : ℚ) < min (s.top_k : ℚ) ((tr.countP (fun x => x == 1) : ℕ) : ℚ) := by
      apply lt_min
      · exact_mod_cast hk
      · exact_mod_cast Nat.pos_of_ne_zero h0
    rw [npDiv, if_neg (ne_of_gt hpos)]
    rfl

/-- Witness for C4 on a batch containing an all-zero target row. -/
theorem c4_rprecision_zero_label_rows_witness :
    0 < (RPrecision.init 2).top_k ∧
    (∀ row ∈ (Mat.mk 2 3 [[0, 0, 0], [0, 1, 0]]).data, ∀ x ∈ row, x = 0 ∨ x = 1) ∧
    (RPrecision.init 2).step (Mat.mk 2 3 [[9/10, 1/10, 8/10], [2/10, 7/10, 3/10]])
        (Mat.mk 2 3 [[0, 0, 0], [0, 1, 0]])
      = { RPrecision.init 2 with
          score := (RPrecision.init 2).score +
            (((Mat.mk 2 3 [[9/10, 1/10, 8/10], [2/10, 7/10, 3/10]]).data.zip
              (Mat.mk 2 3 [[0, 0, 0], [0, 1, 0]]).data).map (fun rt =>
                if rt.2.countP (fun x => x == 1) = 0 then 0
                else (((topIdx (RPrecision.init 2).top_k rt.1).countP
                    (fun j => rt.2.getD j 0 == 1) : ℕ) : ℚ)
                  / (min ((RPrecision.init 2).top_k : ℚ)
                      ((rt.2.countP (fun x => x == 1) : ℕ) : ℚ)))).sum,
          num_sample := (RPrecision.init 2).num_sample
            + (Mat.mk 2 3 [[9/10, 1/10, 8/10], [2/10, 7/10, 3/10]]).rows,
          updated := true } :=
  ⟨by decide, by decide,
   c4_rprecision_zero_label_rows (RPrecision.init 2)
     (Mat.mk 2 3 [[9/10, 1/10, 8/10], [2/10, 7/10, 3/10]])
     (Mat.mk 2 3 [[0, 0, 0], [0, 1, 0]]) (by decide) (by decide)⟩

/-- C5: a `Precision` (samples-average) update adds one scalar for the
whole batch — the per-row counts of true positives among the top-`top_k`
indices, summed over the batch and divided once by `top_k` — and grows the
sample count by the batch's row count; `compute()` divides the
accumulated score by the accumulated sample count. -/
theorem c5_precision_batch_level (s : Precision) (p t : Mat)
    (hb : ∀ row ∈ t.data, ∀ x ∈ row, x = 0 ∨ x = 1) :
    s.step p t = { s with
      score := s.score +
        ((p.data.zip t.data).map (fun rt =>
          (((topIdx s.top_k rt.1).countP (fun j => rt.2.getD j 0 == 1) : ℕ) : ℚ))).sum
          / (s.top_k : ℚ),
      num_sample := s.num_sample + p.rows,
      updated := true } ∧
    (∀ s' : Precision, s'.num_sample ≠ 0 →
      s'.compute = .ok (.val (s'.score / (s'.num_sample : ℚ)))) := by
  constructor
  · unfold Precision.step
    simp only [Precision.mk.injEq]
    refine ⟨trivial, ?_, trivial, trivial⟩
    congr 2
    apply congrArg List.sum
    apply List.map_congr_left
    intro a ha
    obtain ⟨pr, tr⟩ := a
    have htr : ∀ x ∈ tr, x = 0 ∨ x = 1 := hb tr (List.of_mem_zip ha).2
    show rowRelevant s.top_k pr tr = _
    rw [rowRelevant, sum_getD_eq_count tr htr]
  · intro s' h
    unfold Precision.compute pyDivMixed
    rw [if_neg h]

/-- Witness for C5 at a concrete batch. -/
theorem c5_precision_batch_level_witness :
    (∀ row ∈ (Mat.mk 2 3 [[1, 0, 1], [0, 1, 0]]).data, ∀ x ∈ row, x = 0 ∨ x = 1) ∧
    ((Precision.init 1).step (Mat.mk 2 3 [[9/10, 1/10, 8/10], [2/10, 7/10, 3/10]])
        (Mat.mk 2 3 [[1, 0, 1], [0, 1, 0]])
      = { Precision.init 1 with
          score := (Precision.init 1).score +
            (((Mat.mk 2 3 [[9/10, 1/10, 8/10], [2/10, 7/10, 3/10]]).data.zip
              (Mat.mk 2 3 [[1, 0, 1], [0, 1, 0]]).data).map (fun rt =>
                (((topIdx (Precision.init 1).top_k rt.1).countP
                  (fun j => rt.2.getD j 0 == 1) : ℕ) : ℚ))).sum
              / ((Precision.init 1).top_k : ℚ),
          num_sample := (Precision.init 1).num_sample
            + (Mat.mk 2 3 [[9/10, 1/10, 8/10], [2/10, 7/10, 3/10]]).rows,
          updated := true } ∧
      (∀ s' : Precision, s'.num_sample ≠ 0 →
        s'.compute = .ok (.val (s'.score / (s'.num_sample : ℚ))))) :=
  ⟨by decide,
   c5_precision_batch_level (Precision.init 1)
     (Mat.mk 2 3 [[9/10, 1/10, 8/10], [2/10, 7/10, 3/10]])
     (Mat.mk 2 3 [[1, 0, 1], [0, 1, 0]]) (by decide)⟩

/-- C8: `MetricCollection.update` validates shape equality before touching
any member — a mismatch fails the whole call with `AssertionError` and no
accumulator state is produced — and on same-shaped inputs the identical
`(preds, target)` batch is fanned out to every member in order. -/
theorem c8_collection_update_atomic (c : MColl) (p t : Mat) :
    (¬(p.rows = t.rows ∧ p.cols = t.cols) →
      c.update p t = .error .assertionError) ∧
    ((p.rows = t.rows ∧ p.cols = t.cols) →
      c.update p t = (c.metrics.mapM (fun (nm : String × Metric) =>
        (nm.2.update p t).map (fun m => (nm.1, m)))).map MColl.mk) := by
  constructor
  · intro h
    unfold MColl.update
    rw [if_pos h]
  · intro h
    unfold MColl.update
    rw [if_neg (not_not_intro h)]

/-- Witness for C8: a mismatched pair fails atomically; a matched pair
fans out to the members. -/
theorem c8_collection_update_atomic_witness :
    ¬((Mat.mk 1 2 [[1, 0]]).rows = (Mat.mk 2 2 [[1, 0], [0, 1]]).rows ∧
      (Mat.mk 1 2 [[1, 0]]).cols = (Mat.mk 2 2 [[1, 0], [0, 1]]).cols) ∧
    (MColl.mk [("RP@1", .rp (RPrecision.init 1)),
        ("Macro-F1", .f1 (F1.init 2 (1/2) "macro" false))]).update
        (Mat.mk 1 2 [[1, 0]]) (Mat.mk 2 2 [[1, 0], [0, 1]])
      = .error .assertionError ∧
    ((Mat.mk 1 2 [[1, 0]]).rows = (Mat.mk 1 2 [[0, 1]]).rows ∧
      (Mat.mk 1 2 [[1, 0]]).cols = (Mat.mk 1 2 [[0, 1]]).cols) ∧
    (MColl.mk [("RP@1", .rp (RPrecision.init 1)),
        ("Macro-F1", .f1 (F1.init 2 (1/2) "macro" false))]).update
        (Mat.mk 1 2 [[1, 0]]) (Mat.mk 1 2 [[0, 1]])
      = ((MColl.mk [("RP@1", .rp (RPrecision.init 1)),
          ("Macro-F1", .f1 (F1.init 2 (1/2) "macro" false))]).metrics.mapM
            (fun (nm : String × Metric) =>
              (nm.2.update (Mat.mk 1 2 [[1, 0]]) (Mat.mk 1 2 [[0, 1]])).map
                (fun m => (nm.1, m)))).map MColl.mk :=
  ⟨by decide,
   (c8_collection_update_atomic
     (MColl.mk [("RP@1", .rp (RPrecision.init 1)),
       ("Macro-F1", .f1 (F1.init 2 (1/2) "macro" false))])
     (Mat.mk 1 2 [[1, 0]]) (Mat.mk 2 2 [[1, 0], [0, 1]])).1 (by decide),
   by decide,
   (c8_collection_update_atomic
     (MColl.mk [("RP@1", .rp (RPrecision.init 1)),
       ("Macro-F1", .f1 (F1.init 2 (1/2) "macro" false))])
     (Mat.mk 1 2 [[1, 0]]) (Mat.mk 1 2 [[0, 1]])).2 (by decide)⟩

/-- Model fact: `np.nansum` of a vector with no infinities is the plain sum with NaN
entries replaced by 0. -/
theorem nansum_eq_sum_of_guard {α : Type} (f : α → NpF) (g : α → ℚ) :
    ∀ l : List α, (∀ x ∈ l, (f x = .nan ∧ g x = 0) ∨ f x = .val (g x)) →
      nansum (l.map f) = .val ((l.map g).sum) := by
  have aux : ∀ (l : List α) (q : ℚ),
      (∀ x ∈ l, (f x = .nan ∧ g x = 0) ∨ f x = .val (g x)) →
      (l.map f).foldl
          (fun acc x => NpF.add acc (if x = NpF.nan then NpF.val 0 else x))
          (NpF.val q)
        = .val (q + (l.map g).sum) := by
    intro l
    induction l with
    | nil => intro q _; simp
    | cons x l ih =>
      intro q hl
      have hx := hl x (List.mem_cons_self x l)
      have hrest := fun y hy => hl y (List.mem_cons_of_mem x hy)
      simp only [List.map_cons, List.foldl_cons, List.sum_cons]
      rcases hx with ⟨h1, h2⟩ | h1
      · have e1 : (if NpF.nan = NpF.nan then NpF.val 0 else NpF.nan) = NpF.val 0 :=
          if_pos rfl
        rw [h1, e1]
        rw [show NpF.add (NpF.val q) (NpF.val 0) = NpF.val (q + 0) from rfl,
          ih (q + 0) hrest, h2]
        ring_nf
      · have e2 : (if NpF.val (g x) = NpF.nan then NpF.val 0 else NpF.val (g x))
            = NpF.val (g x) := if_neg (by simp)
        rw [h1, e2]
        rw [show NpF.add (NpF.val q) (NpF.val (g x)) = NpF.val (q + g x) from rfl,
          ih (q + g x) hrest]
        ring_nf
  intro l h
  rw [nansum, aux l 0 h, zero_add]

/-- C3: `F1.compute` with `macro` averaging returns the sum over all
classes of `2·tp/(2·tp+fp+fn)` — a class with zero denominator
contributing 0 via the NaN/`nansum` suppression — divided by the
constructor's `num_classes`, not by the number of classes with nonzero
denominator. -/
theorem c3_macro_f1_formula (s : F1) (tp fn fp : List ℕ)
    (havg : s.average = "macro") (hc : s.counts = some (tp, fn, fp))
    (hn : 0 < s.num_classes) (hl1 : tp.length = s.num_classes)
    (hl2 : fn.length = s.num_classes) (hl3 : fp.length = s.num_classes) :
    s.compute = .ok (.val (
      ((tp.zip (fn.zip fp)).map (fun c =>
        if 2 * c.1 + c.2.2 + c.2.1 = 0 then (0 : ℚ)
        else 2 * (c.1 : ℚ) / (2 * (c.1 : ℚ) + (c.2.2 : ℚ) + (c.2.1 : ℚ)))).sum
      / (s.num_classes : ℚ))) := by
  obtain ⟨n, th, avg, mc, cnts⟩ := s
  replace havg : avg = "macro" := havg
  replace hc : cnts = some (tp, fn, fp) := hc
  replace hn : 0 < n := hn
  subst havg hc
  show Except.ok (NpF.div
      (nansum ((tp.zip (fn.zip fp)).map (fun c =>
        npDiv (2 * (c.1 : ℚ)) (2 * (c.1 : ℚ) + (c.2.2 : ℚ) + (c.2.1 : ℚ)))))
      (NpF.val (n : ℚ))) = _
  rw [nansum_eq_sum_of_guard
    (fun c => npDiv (2 * (c.1 : ℚ)) (2 * (c.1 : ℚ) + (c.2.2 : ℚ) + (c.2.1 : ℚ)))
    (fun c => if 2 * c.1 + c.2.2 + c.2.1 = 0 then (0 : ℚ)
      else 2 * (c.1 : ℚ) / (2 * (c.1 : ℚ) + (c.2.2 : ℚ) + (c.2.1 : ℚ)))
    (tp.zip (fn.zip fp)) ?guard]
  case guard =>
    intro c _
    dsimp only
    by_cases hd : 2 * c.1 + c.2.2 + c.2.1 = 0
    · left
      have htp : c.1 = 0 := by omega
      have hden : 2 * (c.1 : ℚ) + (c.2.2 : ℚ) + (c.2.1 : ℚ) = 0 := by
        have hq : ((2 * c.1 + c.2.2 + c.2.1 : ℕ) : ℚ) = 0 := by rw [hd]; norm_num
        push_cast at hq
        linarith
      constructor
      · rw [hden, htp]
        norm_num [npDiv]
      · rw [if_pos hd]
    · right
      have hden : 2 * (c.1 : ℚ) + (c.2.2 : ℚ) + (c.2.1 : ℚ) ≠ 0 := by
        intro h
        apply hd
        have hq : ((2 * c.1 + c.2.2 + c.2.1 : ℕ) : ℚ) = 0 := by push_cast; linarith
        exact_mod_cast hq
      unfold npDiv
      rw [if_neg hden, if_neg hd]
  · have hne : (n : ℚ) ≠ 0 := Nat.cast_ne_zero.mpr (Nat.pos_iff_ne_zero.mp hn)
    rw [show ∀ a b : ℚ, NpF.div (NpF.val a) (NpF.val b) = npDiv a b from
      fun a b => rfl]
    unfold npDiv
    rw [if_neg hne]

/-- Witness for C3 at concrete accumulated counts (one class with a zero
denominator). -/
theorem c3_macro_f1_formula_witness :
    (F1.mk 3 (1/2) "macro" false (some ([1, 0, 0], [1, 0, 2], [0, 0, 1]))).average
        = "macro" ∧
    (F1.mk 3 (1/2) "macro" false (some ([1, 0, 0], [1, 0, 2], [0, 0, 1]))).counts
        = some ([1, 0, 0], [1, 0, 2], [0, 0, 1]) ∧
    0 < (F1.mk 3 (1/2) "macro" false
        (some ([1, 0, 0], [1, 0, 2], [0, 0, 1]))).num_classes ∧
    (F1.mk 3 (1/2) "macro" false (some ([1, 0, 0], [1, 0, 2], [0, 0, 1]))).compute
      = .ok (.val (
        ((([1, 0, 0] : List ℕ).zip (([1, 0, 2] : List ℕ).zip
            ([0, 0, 1] : List ℕ))).map (fun c =>
          if 2 * c.1 + c.2.2 + c.2.1 = 0 then (0 : ℚ)
          else 2 * (c.1 : ℚ) / (2 * (c.1 : ℚ) + (c.2.2 : ℚ) + (c.2.1 : ℚ)))).sum
        / ((F1.mk 3 (1/2) "macro" false
            (some ([1, 0, 0], [1, 0, 2], [0, 0, 1]))).num_classes : ℚ))) :=
  ⟨rfl, rfl, by decide,
   c3_macro_f1_formula
     (F1.mk 3 (1/2) "macro" false (some ([1, 0, 0], [1, 0, 2], [0, 0, 1])))
     [1, 0, 0] [1, 0, 2] [0, 0, 1] rfl rfl (by decide) rfl rfl rfl⟩

/-- A string matching `RP@\d+` cannot match `P@\d+` (its first character
is `R`, not `P`). -/
theorem matchRPAt_not_matchPAt (x : String) (h : matchRPAt x = true) :
    matchPAt x = false := by
  unfold matchRPAt at h
  unfold matchPAt
  rw [Bool.and_eq_true] at h
  have h3 : x.toList.take 3 = ['R', 'P', '@'] := by
    have hb := h.1
    rwa [beq_iff_eq] at hb
  have h2 : x.toList.take 2 = ['R', 'P'] := by
    have hc := congrArg (List.take 2) h3
    rwa [List.take_take] at hc
  rw [Bool.and_eq_false_iff]
  left
  rw [beq_eq_false_iff_ne]
  rw [h2]
  decide

/-- A recognized metric name is consumed by one step of the factory loop,
which recurses on the remaining names with some extended dictionary. -/
theorem buildMetrics_cons_ok (th : ℚ) (n : ℕ) (mc : Bool) (x : String)
    (rest' : List String) (acc : List (String × Metric))
    (hx : (matchPAt x = true ∧ digitsOk (x.drop 2) = true) ∨
      (matchRPAt x = true ∧ digitsOk (x.drop 3) = true) ∨
      x = "Another-Macro-F1" ∨ x = "Macro-F1" ∨ x = "Micro-F1") :
    ∃ acc', buildMetrics th n mc (x :: rest') acc = buildMetrics th n mc rest' acc' := by
  rcases hx with ⟨hP, hD⟩ | ⟨hRP, hD⟩ | hA | hM | hMi
  · refine ⟨dictInsert acc x (.prec (Precision.init
      ((x.drop 2).toList.foldl (fun a c => 10 * a + (c.toNat - 48)) 0))), ?_⟩
    rw [buildMetrics]
    simp only [hP, hD, pyInt, Precision.make, eq_self_iff_true, not_true, if_true,
      if_false, Except.bind, ne_eq]
  · have hP : matchPAt x = false := matchRPAt_not_matchPAt x hRP
    refine ⟨dictInsert acc x (.rp (RPrecision.init
      ((x.drop 3).toList.foldl (fun a c => 10 * a + (c.toNat - 48)) 0))), ?_⟩
    rw [buildMetrics]
    simp only [hP, hRP, hD, pyInt, eq_self_iff_true, if_true, if_false,
      Bool.false_eq_true, Except.bind]
  · subst hA
    refine ⟨dictInsert acc "Another-Macro-F1" (.f1 (F1.init n th "another-macro" mc)), ?_⟩
    rw [buildMetrics]
    simp only [show matchPAt "Another-Macro-F1" = false from by decide,
      show matchRPAt "Another-Macro-F1" = false from by decide,
      Bool.false_eq_true, if_false, true_or, or_true, if_true]
    rw [show sliceLower3 "Another-Macro-F1" = "another-macro" from by decide]
    rw [show F1.make n th "another-macro" mc = .ok (F1.init n th "another-macro" mc) from by
      unfold F1.make
      rw [if_neg (not_not_intro (Or.inr (Or.inr rfl)))]]
    simp only [Except.bind]
  · subst hM
    refine ⟨dictInsert acc "Macro-F1" (.f1 (F1.init n th "macro" mc)), ?_⟩
    rw [buildMetrics]
    simp only [show matchPAt "Macro-F1" = false from by decide,
      show matchRPAt "Macro-F1" = false from by decide,
      Bool.false_eq_true, if_false, true_or, or_true, if_true]
    rw [show sliceLower3 "Macro-F1" = "macro" from by decide]
    rw [show F1.make n th "macro" mc = .ok (F1.init n th "macro" mc) from by
      unfold F1.make
      rw [if_neg (not_not_intro (Or.inl rfl))]]
    simp only [Except.bind]
  · subst hMi
    refine ⟨dictInsert acc "Micro-F1" (.f1 (F1.init n th "micro" mc)), ?_⟩
    rw [buildMetrics]
    simp only [show matchPAt "Micro-F1" = false from by decide,
      show matchRPAt "Micro-F1" = false from by decide,
      Bool.false_eq_true, if_false, true_or, or_true, if_true]
    rw [show sliceLower3 "Micro-F1" = "micro" from by decide]
    rw [show F1.make n th "micro" mc = .ok (F1.init n th "micro" mc) from by
      unfold F1.make
      rw [if_neg (not_not_intro (Or.inr (Or.inl rfl)))]]
    simp only [Except.bind]

/-- An unrecognized metric name after a prefix of recognized ones makes
the factory loop fail with the error naming that string. -/
theorem buildMetrics_err (th : ℚ) (n : ℕ) (mc : Bool) (m : String)
    (rest : List String) (hm1 : matchPAt m = false) (hm2 : matchRPAt m = false)
    (hm3 : ¬(m = "Another-Macro-F1" ∨ m = "Macro-F1" ∨ m = "Micro-F1")) :
    ∀ (pre : List String) (acc : List (String × Metric)),
      (∀ x ∈ pre, (matchPAt x = true ∧ digitsOk (x.drop 2) = true) ∨
        (matchRPAt x = true ∧ digitsOk (x.drop 3) = true) ∨
        x = "Another-Macro-F1" ∨ x = "Macro-F1" ∨ x = "Micro-F1") →
      buildMetrics th n mc (pre ++ m :: rest) acc
        = .error (.valueError ("invalid metric: " ++ m))
  | [], acc, _ => by
      rw [List.nil_append, buildMetrics]
      simp only [hm1, hm2, Bool.false_eq_true, if_false]
      rw [if_neg hm3]
  | x :: pre, acc, hpre => by
      rw [List.cons_append]
      obtain ⟨acc', he⟩ := buildMetrics_cons_ok th n mc x (pre ++ m :: rest) acc
        (hpre x (List.mem_cons_self x pre))
      rw [he]
      exact buildMetrics_err th n mc m rest hm1 hm2 hm3 pre acc'
        (fun y hy => hpre y (List.mem_cons_of_mem x hy))

/-- C6: configuration errors are raised synchronously before any
accumulation: `Precision.__init__` rejects every average other than
`samples`, `F1.__init__` rejects every average outside
macro/micro/another-macro, and `get_metrics` fails on any name matching
none of the recognized patterns with an error naming that string. -/
theorem c6_config_errors :
    (∀ (n k : ℕ) (avg : String), avg ≠ "samples" →
      Precision.make n avg k = .error (.valueError "unsupported average")) ∧
    (∀ (n : ℕ) (th : ℚ) (avg : String) (mc : Bool),
      ¬(avg = "macro" ∨ avg = "micro" ∨ avg = "another-macro") →
      F1.make n th avg mc = .error (.valueError "unsupported average")) ∧
    (∀ (th : ℚ) (n : ℕ) (mc : Bool) (pre rest : List String) (m : String),
      (∀ x ∈ pre, (matchPAt x = true ∧ digitsOk (x.drop 2) = true) ∨
        (matchRPAt x = true ∧ digitsOk (x.drop 3) = true) ∨
        x = "Another-Macro-F1" ∨ x = "Macro-F1" ∨ x = "Micro-F1") →
      matchPAt m = false → matchRPAt m = false →
      ¬(m = "Another-Macro-F1" ∨ m = "Macro-F1" ∨ m = "Micro-F1") →
      get_metrics th (pre ++ m :: rest) n mc
        = .error (.valueError ("invalid metric: " ++ m))) := by
  refine ⟨?_, ?_, ?_⟩
  · intro n k avg h
    unfold Precision.make
    rw [if_pos h]
  · intro n th avg mc h
    unfold F1.make
    rw [if_pos h]
  · intro th n mc pre rest m hpre h1 h2 h3
    unfold get_metrics
    rw [buildMetrics_err th n mc m rest h1 h2 h3 pre [] hpre]
    rfl

/-- Witness for C6, including the spec scenario
`["P@1", "RP@2", "Macro-F1", "Bogus@1"]`. -/
theorem c6_config_errors_witness :
    ("mean" : String) ≠ "samples" ∧
    Precision.make 4 "mean" 1 = .error (.valueError "unsupported average") ∧
    ¬(("weighted" : String) = "macro" ∨ ("weighted" : String) = "micro" ∨
      ("weighted" : String) = "another-macro") ∧
    F1.make 4 (1/2) "weighted" false = .error (.valueError "unsupported average") ∧
    matchPAt "Bogus@1" = false ∧ matchRPAt "Bogus@1" = false ∧
    ¬(("Bogus@1" : String) = "Another-Macro-F1" ∨
      ("Bogus@1" : String) = "Macro-F1" ∨ ("Bogus@1" : String) = "Micro-F1") ∧
    get_metrics (1/2) (["P@1", "RP@2", "Macro-F1"] ++ "Bogus@1" :: []) 4 false
      = .error (.valueError ("invalid metric: " ++ "Bogus@1")) :=
  ⟨by decide, c6_config_errors.1 4 1 "mean" (by decide),
   by decide, c6_config_errors.2.1 4 (1/2) "weighted" false (by decide),
   by decide, by decide, by decide,
   c6_config_errors.2.2 (1/2) 4 false ["P@1", "RP@2", "Macro-F1"] [] "Bogus@1"
     (by decide) (by decide) (by decide) (by decide)⟩

/-- Formatting of the concrete value `0.756 * 100` to 4 decimal places. -/
theorem fmt756 : fmtFixed4 ((756/1000 : ℚ) * 100) = "75.6000" := by
  have hrhe : rhe ((756/1000 : ℚ) * 100 * 10000) = 756000 := by
    simp only [rhe]
    rw [show ((756/1000 : ℚ) * 100 * 10000) = 756000 by norm_num]
    rw [show ((756000 : ℚ)).floor = 756000 by rw [Rat.floor_def']; norm_num]
    norm_num
  simp only [fmtFixed4, hrhe]
  decide

/-- The concrete table for `{"Macro-F1": 0.756}` on split `"test"`. -/
theorem tab756 : tabulate_metrics [("Macro-F1", 756/1000)] "test"
    = "====== test dataset evaluation result =======\n|     Macro-F1     |\n|-----------------:|\n|     75.6000      |\n" := by
  unfold tabulate_metrics
  simp only [List.map_cons, List.map_nil]
  rw [show (("Macro-F1", (756/1000 : ℚ)).2 * 100) = ((756/1000 : ℚ) * 100) from rfl,
    fmt756]
  decide

set_option maxRecDepth 20000 in
/-- C7 counterexample: `tabulate_metrics({"Macro-F1": 0.756}, "test")`
does not show `75.5600` anywhere — `0.756` scaled by 100 is `75.6`,
printed with 4 decimal places as `75.6000`. -/
theorem c7_counterexample :
    tabulate_metrics [("Macro-F1", 756/1000)] "test"
      = "====== test dataset evaluation result =======\n|     Macro-F1     |\n|-----------------:|\n|     75.6000      |\n" ∧
    ¬ List.IsInfix "75.5600".toList
      (tabulate_metrics [("Macro-F1", 756/1000)] "test").toList := by
  refine ⟨tab756, ?_⟩
  rw [tab756]
  decide

set_option maxRecDepth 20000 in
/-- C7 amended: the value row shows `75.6000` (the percentage of `0.756`
to 4 decimal places), centered in an 18-character field; non-floating
values and the 18-character centering behave as the code states. -/
theorem c7_tabulate_formats :
    tabulate_metrics [("Macro-F1", 756/1000)] "test"
      = "====== test dataset evaluation result =======\n|" ++ center18 "Macro-F1"
        ++ "|\n|-----------------:|\n|" ++ center18 "75.6000" ++ "|\n" ∧
    center18 "75.6000" = "     75.6000      " ∧
    fmtFixed4 ((756/1000 : ℚ) * 100) = "75.6000" ∧
    List.IsInfix "75.6000".toList
      (tabulate_metrics [("Macro-F1", 756/1000)] "test").toList := by
  refine ⟨?_, by decide, fmt756, ?_⟩
  · rw [tab756]
    decide
  · rw [tab756]
    decide
